import Mathlib

/-!
Verification of the zabbix-mcp-chat tool-dispatch bridge.

This file gives a shallow embedding of the Python sources
(`src/chatbot/app.py` — the `ChatbotService`; `src/chatbot/chatbot/app.py`
and `src/jump-home/app/test_script.py` — the legacy variants) and proves
or refutes the frozen claims about them.

Modelling conventions:
- Python strings are modelled by `String`, manipulated through explicit
  `List Char` helpers (Python indexes strings by code point, as a char
  list does).
- `json.loads` is modelled by an executable recursive-descent parser
  `jsonLoads` over a `Json` value type; numbers are kept as a mantissa
  times a power of ten so that integer and decimal literals both parse.
- External effects (the MCP transport, the remote tool host, the Ollama
  model host, the clock) are supplied through a `World` record that holds
  the outcome each external call would produce for this request.
- Raised-and-caught Python exceptions become `Except`/`Option` values;
  datetime arithmetic becomes arithmetic over seconds represented as `Nat`.
- Session lifecycle is made observable through an `Event` trace and a
  ghost session counter: the source never invokes any close/`__aexit__`
  on a session object, so no definition below ever emits a close event.
-/

/- JSON values as produced by the modelled `json.loads`.  A number is
`num m e`, meaning `m * 10 ^ e`, so `5` parses to `num 5 0` and `1.5`
to `num 15 (-1)`. Objects are insertion-ordered key/value sequences with
unique keys (Python `dict` semantics); arrays and objects use the mutual
list types `JsonItems` and `JsonFields`. -/
mutual

/-- JSON value, as returned by the modelled `json.loads`. -/
inductive Json where
  | null : Json
  | bool : Bool → Json
  | num : Int → Int → Json
  | str : String → Json
  | arr : JsonItems → Json
  | obj : JsonFields → Json

/-- Sequence of JSON array items. -/
inductive JsonItems where
  | nil : JsonItems
  | cons : Json → JsonItems → JsonItems

/-- Sequence of JSON object fields. -/
inductive JsonFields where
  | nil : JsonFields
  | cons : String → Json → JsonFields → JsonFields

end

deriving instance DecidableEq for Json, JsonItems, JsonFields

def JsonItems.ofList : List Json → JsonItems
  | [] => JsonItems.nil
  | x :: tl => JsonItems.cons x (JsonItems.ofList tl)

def JsonFields.ofList : List (String × Json) → JsonFields
  | [] => JsonFields.nil
  | (k, v) :: tl => JsonFields.cons k v (JsonFields.ofList tl)

/-- Array literal helper for writing `Json` terms. -/
def jarr (xs : List Json) : Json := Json.arr (JsonItems.ofList xs)

/-- Object literal helper for writing `Json` terms. -/
def jobj (kvs : List (String × Json)) : Json := Json.obj (JsonFields.ofList kvs)

def JsonItems.isEmpty : JsonItems → Bool
  | JsonItems.nil => true
  | JsonItems.cons _ _ => false

def JsonFields.isEmpty : JsonFields → Bool
  | JsonFields.nil => true
  | JsonFields.cons _ _ _ => false

/-- Python truthiness of a JSON-representable value (`bool(x)`). -/
def jsonTruthy : Json → Bool
  | Json.null => false
  | Json.bool b => b
  | Json.num m _ => m != 0
  | Json.str s => !s.data.isEmpty
  | Json.arr xs => !xs.isEmpty
  | Json.obj kvs => !kvs.isEmpty

/-- Characters stripped by Python `str.strip()` (ASCII whitespace). -/
def pyIsSpace (c : Char) : Bool :=
  c = ' ' || c = '\t' || c = '\n' || c = '\r' || c = '\x0b' || c = '\x0c'

/-- Whitespace accepted between JSON tokens by `json.loads`. -/
def jsonWsChar (c : Char) : Bool :=
  c = ' ' || c = '\t' || c = '\n' || c = '\r'

def skipWs (cs : List Char) : List Char := cs.dropWhile jsonWsChar

/-- Model of Python `str.strip()` on the char-list representation. -/
def pyStripChars (cs : List Char) : List Char :=
  ((cs.dropWhile pyIsSpace).reverse.dropWhile pyIsSpace).reverse

def pyStrip (s : String) : String := String.mk (pyStripChars s.data)

def isPrefixChars (p s : List Char) : Bool :=
  match p, s with
  | [], _ => true
  | _, [] => false
  | a :: tlp, b :: tls => if a = b then isPrefixChars tlp tls else false

/-- Python `needle in hay` on strings: some suffix of `hay` starts with
`needle`. -/
def containsSub (hay needle : List Char) : Bool :=
  match hay with
  | [] => needle.isEmpty
  | _ :: tl => isPrefixChars needle hay || containsSub tl needle

def toLowerChars (s : String) : String := String.mk (s.data.map Char.toLower)

/-- Python slicing `s[n:]` (drop the first `n` code points). -/
def strDropChars (s : String) (n : Nat) : String := String.mk (s.data.drop n)

/-- Python slicing `s[:-n]` for `n ≤ len(s)` (drop the last `n` code points). -/
def strDropRightChars (s : String) (n : Nat) : String :=
  String.mk (s.data.take (s.data.length - n))

def startsWithChars (s p : String) : Bool := isPrefixChars p.data s.data

def endsWithChars (s p : String) : Bool :=
  isPrefixChars p.data.reverse s.data.reverse

/-- Python `sep.join(xs)`. -/
def joinSep (sep : String) : List String → String
  | [] => ""
  | [x] => x
  | x :: y :: tl => x ++ sep ++ joinSep sep (y :: tl)

/-- Python `s.rstrip(c)` for a single strip character. -/
def rstripChar (cs : List Char) (c : Char) : List Char :=
  (cs.reverse.dropWhile (fun d => d = c)).reverse

/-- Python `dict` insertion: an existing key keeps its position and gets the
new value, a new key is appended. -/
def insertKV (kvs : JsonFields) (k : String) (v : Json) : JsonFields :=
  match kvs with
  | JsonFields.nil => JsonFields.cons k v JsonFields.nil
  | JsonFields.cons k0 v0 tl =>
    if k0 = k then JsonFields.cons k0 v tl
    else JsonFields.cons k0 v0 (insertKV tl k v)

/-- Python `dict.get(k)` (returns `None` when the key is absent). -/
def lookupKV (kvs : JsonFields) (k : String) : Option Json :=
  match kvs with
  | JsonFields.nil => none
  | JsonFields.cons k0 v tl => if k0 = k then some v else lookupKV tl k

/-! ### Model of `json.loads`

An executable recursive-descent parser for strict JSON (null, booleans,
numbers, strings with escapes, arrays, objects).  The parse succeeds only
when the whole input, up to surrounding JSON whitespace, is consumed —
matching `json.loads`, which raises on trailing data.  Simplifications
kept deliberately (they are shared by every use below, so equivalences
between extractors are unaffected): leading-zero digit strings are not
rejected, and a `\uXXXX` escape maps directly to one code point. -/

def digitVal (c : Char) : Option Nat :=
  let n := c.toNat
  if 48 ≤ n ∧ n ≤ 57 then some (n - 48) else none

def hexVal (c : Char) : Option Nat :=
  let n := c.toNat
  if 48 ≤ n ∧ n ≤ 57 then some (n - 48)
  else if 97 ≤ n ∧ n ≤ 102 then some (n - 87)
  else if 65 ≤ n ∧ n ≤ 70 then some (n - 55)
  else none

def escChar (c : Char) : Option Char :=
  if c = '"' then some '"'
  else if c = '\\' then some '\\'
  else if c = '/' then some '/'
  else if c = 'b' then some (Char.ofNat 8)
  else if c = 'f' then some (Char.ofNat 12)
  else if c = 'n' then some '\n'
  else if c = 'r' then some '\r'
  else if c = 't' then some '\t'
  else none

/-- Parse the body of a JSON string literal (the opening quote already
consumed), returning the decoded string and the rest of the input. -/
def parseStrBody : Nat → List Char → List Char → Option (String × List Char)
  | 0, _, _ => none
  | _ + 1, _, [] => none
  | fuel + 1, acc, c :: cs =>
    if c = '"' then some (String.mk acc.reverse, cs)
    else if c = '\\' then
      match cs with
      | [] => none
      | e :: cs2 =>
        if e = 'u' then
          match cs2 with
          | h1 :: h2 :: h3 :: h4 :: cs3 =>
            match hexVal h1, hexVal h2, hexVal h3, hexVal h4 with
            | some a, some b, some c3, some d =>
              parseStrBody fuel (Char.ofNat (((a * 16 + b) * 16 + c3) * 16 + d) :: acc) cs3
            | _, _, _, _ => none
          | _ => none
        else
          match escChar e with
          | some d => parseStrBody fuel (d :: acc) cs2
          | none => none
    else parseStrBody fuel (c :: acc) cs

/-- Consume a maximal run of decimal digits. -/
def takeDigits : List Char → List Nat × List Char
  | [] => ([], [])
  | c :: tl =>
    match digitVal c with
    | some d =>
      match takeDigits tl with
      | (ds, rest) => (d :: ds, rest)
    | none => ([], c :: tl)

def digitsToNat (ds : List Nat) : Nat := ds.foldl (fun a d => a * 10 + d) 0

/-- Optional fraction part `.digits`; a bare dot is a parse error. -/
def parseFrac : List Char → Option (List Nat × List Char)
  | [] => some ([], [])
  | c :: tl =>
    if c = '.' then
      match takeDigits tl with
      | ([], _) => none
      | (ds, rest) => some (ds, rest)
    else some ([], c :: tl)

/-- Optional exponent part `e[+-]digits`; a bare `e` is a parse error. -/
def parseExp : List Char → Option (Int × List Char)
  | [] => some (0, [])
  | c :: tl =>
    if c = 'e' || c = 'E' then
      let signed : Bool × List Char :=
        match tl with
        | d :: tl2 =>
          if d = '-' then (true, tl2)
          else if d = '+' then (false, tl2) else (false, d :: tl2)
        | [] => (false, [])
      match takeDigits signed.2 with
      | ([], _) => none
      | (ds, rest) =>
        let mag : Int := Int.ofNat (digitsToNat ds)
        some ((if signed.1 then -mag else mag), rest)
    else some (0, c :: tl)

/-- Parse a JSON number token. -/
def parseNum (cs : List Char) : Option (Json × List Char) :=
  let signed : Bool × List Char :=
    match cs with
    | c :: tl => if c = '-' then (true, tl) else (false, c :: tl)
    | [] => (false, [])
  match takeDigits signed.2 with
  | ([], _) => none
  | (ds, cs2) =>
    match parseFrac cs2 with
    | none => none
    | some (fs, cs3) =>
      match parseExp cs3 with
      | none => none
      | some (e, cs4) =>
        let mant : Int := Int.ofNat (digitsToNat (ds ++ fs))
        some (Json.num (if signed.1 then -mant else mant) (e - Int.ofNat fs.length), cs4)

mutual

/-- Parse one JSON value after skipping leading whitespace. -/
def parseVal : Nat → List Char → Option (Json × List Char)
  | 0, _ => none
  | fuel + 1, cs =>
    match skipWs cs with
    | [] => none
    | c :: rest =>
      if c = 'n' then
        match rest with
        | 'u' :: 'l' :: 'l' :: r => some (Json.null, r)
        | _ => none
      else if c = 't' then
        match rest with
        | 'r' :: 'u' :: 'e' :: r => some (Json.bool true, r)
        | _ => none
      else if c = 'f' then
        match rest with
        | 'a' :: 'l' :: 's' :: 'e' :: r => some (Json.bool false, r)
        | _ => none
      else if c = '"' then
        match parseStrBody (rest.length + 1) [] rest with
        | some (s, r) => some (Json.str s, r)
        | none => none
      else if c = '[' then parseArrItems fuel (skipWs rest) true []
      else if c = '{' then parseObjItems fuel (skipWs rest) true JsonFields.nil
      else parseNum (c :: rest)

/-- Parse array items after `[` (whitespace already skipped). -/
def parseArrItems : Nat → List Char → Bool → List Json → Option (Json × List Char)
  | 0, _, _, _ => none
  | fuel + 1, cs, isFirst, acc =>
    match cs with
    | ']' :: r => if isFirst then some (jarr acc, r) else none
    | _ =>
      match parseVal fuel cs with
      | none => none
      | some (v, r) =>
        match skipWs r with
        | ',' :: r2 => parseArrItems fuel (skipWs r2) false (acc ++ [v])
        | ']' :: r2 => some (jarr (acc ++ [v]), r2)
        | _ => none

/-- Parse object fields after an opening brace (whitespace already
skipped); duplicate keys follow Python `dict` update semantics. -/
def parseObjItems : Nat → List Char → Bool → JsonFields → Option (Json × List Char)
  | 0, _, _, _ => none
  | fuel + 1, cs, isFirst, acc =>
    match cs with
    | '}' :: r => if isFirst then some (Json.obj acc, r) else none
    | '"' :: r =>
      match parseStrBody (r.length + 1) [] r with
      | none => none
      | some (k, r2) =>
        match skipWs r2 with
        | ':' :: r3 =>
          match parseVal fuel r3 with
          | none => none
          | some (v, r4) =>
            match skipWs r4 with
            | ',' :: r5 => parseObjItems fuel (skipWs r5) false (insertKV acc k v)
            | '}' :: r5 => some (Json.obj (insertKV acc k v), r5)
            | _ => none
        | _ => none
    | _ => none

end

/-- Model of `json.loads`: parse one value and require that only
whitespace remains; any failure (a Python `JSONDecodeError`) is `none`. -/
def jsonLoads (s : String) : Option Json :=
  match parseVal (2 * s.data.length + 2) s.data with
  | some (j, rest) => if (skipWs rest).isEmpty then some j else none
  | none => none

/-! ### Regex models and the JSON extractors

`ChatbotService._force_json` (src/chatbot/app.py lines 144-166) strips an
optional ```json fence, tries a direct parse, then falls back to
`re.search` with pattern `\x7b[^\x7d]+\x7d` — the leftmost brace-delimited
run that contains no closing brace inside.  The legacy `_force_json`
(src/chatbot/chatbot/app.py lines 33-40) instead uses the single greedy
DOTALL pattern spanning from the first opening brace to the last closing
brace of the whole text. -/

/-- Match of the pattern `\x7b[^\x7d]+\x7d` anchored at the current
position: a maximal nonempty run of non-`\x7d` characters followed by
`\x7d`. `cs` is the input just after an opening brace. -/
def minBraceAt (cs : List Char) : Option (List Char) :=
  let run := cs.takeWhile (fun c => c ≠ '}')
  match cs.drop run.length with
  | '}' :: _ => if run.isEmpty then none else some ('{' :: (run ++ ['}']))
  | _ => none

/-- Leftmost match of `re.search` with pattern `\x7b[^\x7d]+\x7d`. -/
def matchMinBrace : List Char → Option (List Char)
  | [] => none
  | c :: tl =>
    if c = '{' then
      match minBraceAt tl with
      | some m => some m
      | none => matchMinBrace tl
    else matchMinBrace tl

/-- Leftmost match of `re.search` with the greedy DOTALL pattern from an
opening brace through the last closing brace of the text. -/
def matchGreedyBrace (cs : List Char) : Option (List Char) :=
  let pre := cs.takeWhile (fun c => c ≠ '{')
  match cs.drop pre.length with
  | '{' :: tl =>
    let sufLen := (tl.reverse.takeWhile (fun c => c ≠ '}')).length
    if sufLen = tl.length then none
    else some ('{' :: tl.take (tl.length - sufLen))
  | _ => none

def fenceOpen : String := "```json"

def fenceClose : String := "```"

/-- `ChatbotService._force_json` (src/chatbot/app.py lines 144-166):
strip, drop a leading ```json marker and a trailing ``` marker, try a
direct `json.loads`, then try the leftmost `\x7b[^\x7d]+\x7d` match;
every parse failure is swallowed and yields `none`. -/
def force_json (raw : String) : Option Json :=
  let s0 := pyStrip raw
  let s1 := if startsWithChars s0 fenceOpen then strDropChars s0 7 else s0
  let s2 := if endsWithChars s1 fenceClose then strDropRightChars s1 3 else s1
  match jsonLoads s2 with
  | some j => some j
  | none =>
    match matchMinBrace s2.data with
    | some m =>
      match jsonLoads (String.mk m) with
      | some j => some j
      | none => none
    | none => none

/-- Legacy `_force_json` (src/chatbot/chatbot/app.py lines 33-40 and
src/jump-home/app/test_script.py lines 33-40): parse the greedy
first-brace-to-last-brace match, or `none`. -/
def force_json_legacy (raw : String) : Option Json :=
  match matchGreedyBrace raw.data with
  | some m => jsonLoads (String.mk m)
  | none => none

/-- The extractor exactly as the claim states it: fence stripping and a
direct parse first, then the brace-delimited substring obtained by a
greedy match from the first opening brace to the last closing brace. -/
def extract_spec_claimed (raw : String) : Option Json :=
  let s0 := pyStrip raw
  let s1 := if startsWithChars s0 fenceOpen then strDropChars s0 7 else s0
  let s2 := if endsWithChars s1 fenceClose then strDropRightChars s1 3 else s1
  match jsonLoads s2 with
  | some j => some j
  | none =>
    match matchGreedyBrace s2.data with
    | some m =>
      match jsonLoads (String.mk m) with
      | some j => some j
      | none => none
    | none => none

/-- The amended step (3): the fallback substring is the leftmost minimal
brace-delimited run (first opening brace to the next closing brace, with
at least one intervening non-closing-brace character), never a greedy
span to the last closing brace.  Written from the amended claim text,
composed differently from `force_json` for comparison. -/
def extract_spec_amended (raw : String) : Option Json :=
  let stripped :=
    let s0 := pyStrip raw
    let s1 := if startsWithChars s0 fenceOpen then strDropChars s0 7 else s0
    if endsWithChars s1 fenceClose then strDropRightChars s1 3 else s1
  (jsonLoads stripped).orElse
    (fun _ => (matchMinBrace stripped.data).bind (fun m => jsonLoads (String.mk m)))

/-! ### The heuristic selector

The keyword fallback block inside `choose_tool_with_ollama`
(src/jump-home/app/test_script.py lines 67-74, identical in
src/chatbot/chatbot/app.py lines 66-72). -/

def kwVersion : String := "version"

def kwApi : String := "api"

def kwProblem : String := "problem"

def kwIncident : String := "incident"

def kwAlert : String := "alert"

def kwHost : String := "host"

def toolKey : String := "tool"

def argsKey : String := "arguments"

def errorKey : String := "error"

/-- The decision `\x7b"tool": null, "arguments": \x7b\x7d\x7d`. -/
def nullChoice : Json := jobj [(toolKey, Json.null), (argsKey, jobj [])]

/-- Heuristic fallback of `choose_tool_with_ollama`: case-insensitive
keyword rules over the lowercased prompt, first match winning. -/
def heuristic_fallback (user_prompt : String) : Json :=
  let s := toLowerChars user_prompt
  if containsSub s.data kwVersion.data || containsSub s.data kwApi.data then
    jobj [(toolKey, Json.str ("apiinfo_version")), (argsKey, jobj [])]
  else if containsSub s.data kwProblem.data || containsSub s.data kwIncident.data ||
      containsSub s.data kwAlert.data then
    jobj [(toolKey, Json.str ("problem_get")),
          (argsKey, jobj [("recent", Json.bool true), ("limit", Json.num 5 0)])]
  else if containsSub s.data kwHost.data then
    jobj [(toolKey, Json.str ("host_get")), (argsKey, jobj [])]
  else nullChoice

/-! ### The `ChatbotService` dispatch bridge (src/chatbot/app.py)

The service holds a tool cache with a timestamp.  External calls are
drawn from a `World` record giving the outcome each call would have for
the request being processed.  The session counter `nextSession` is a
ghost field identifying distinct sessions in the event trace; it has no
counterpart in the source, which never stores or closes sessions. -/

/-- A remote tool descriptor; only the name takes part in dispatch. -/
structure Tool where
  description : String
deriving DecidableEq

/-- Observable external actions of one request. -/
inductive Event where
  | sessionOpen : Nat → Event
  | sessionClose : Nat → Event
  | listToolsCall : Nat → Event
  | modelCall : Event
  | toolCall : Nat → String → Event
deriving DecidableEq

def isToolCallEvent : Event → Bool
  | Event.toolCall _ _ => true
  | _ => false

def isCloseEvent : Event → Bool
  | Event.sessionClose _ => true
  | _ => false

/-- Mutable state of `ChatbotService` plus the ghost session counter. -/
structure ServiceState where
  tools_cache : Option (List (String × Tool))
  cache_timestamp : Option Nat
  mcp_available : Bool
  nextSession : Nat
deriving DecidableEq

/-- Outcomes of the external collaborators for a single request:
configuration flag, wall clock (seconds), MCP connection attempts, the
remote tool list, the Ollama call, and the remote tool invocation. -/
structure CallContent where
  text : Option String
deriving DecidableEq

/-- Result object of `session.call_tool`: an optional structured payload
and an optional list of content fragments, each with an optional text. -/
structure CallToolResult where
  structuredContent : Option Json
  content : Option (List CallContent)
deriving DecidableEq

structure World where
  mcpEnabled : Bool
  now : Nat
  catalogConnect : Bool
  catalogTools : Except String (List (String × Tool))
  modelResponse : Except String String
  execConnect : Bool
  callToolResult : Except String CallToolResult

/-- `ChatbotService.get_mcp_session` (lines 55-71): enter a streaming
client, probe it with `list_tools`, return the session or `None`.  The
source enters the context manager and never exits it, so no close event
exists.  On failure `mcp_available` is set to `False`. -/
def get_mcp_session (enabled connectOk : Bool) (st : ServiceState) :
    Option Nat × ServiceState × List Event :=
  if !enabled then (none, st, [])
  else if connectOk then
    (some st.nextSession, { st with nextSession := st.nextSession + 1 },
     [Event.sessionOpen st.nextSession, Event.listToolsCall st.nextSession])
  else (none, { st with mcp_available := false }, [])

/-- Python `\x7bt.name: t for t in tools\x7d`: dict built with update
semantics for duplicate names. -/
def buildToolDict (ts : List (String × Tool)) : List (String × Tool) :=
  ts.foldl (fun acc kv =>
    if (acc.map Prod.fst).contains kv.1 then
      acc.map (fun kv0 => if kv0.1 = kv.1 then (kv0.1, kv.2) else kv0)
    else acc ++ [kv]) []

/-- `timedelta.seconds` of a nonnegative delta: the seconds component,
the day part discarded. -/
def tdSeconds (now ts : Nat) : Nat := (now - ts) % 86400

/-- The refresh condition of `get_tools` (line 79-80). -/
def cacheNeedsRefresh (st : ServiceState) (force : Bool) (now : Nat) : Bool :=
  st.tools_cache.isNone || force ||
    (match st.cache_timestamp with
     | some ts => tdSeconds now ts > 300
     | none => false)

/-- `ChatbotService.get_tools` (lines 73-97). -/
def get_tools (force : Bool) (st : ServiceState) (w : World) :
    List (String × Tool) × ServiceState × List Event :=
  if !w.mcpEnabled then ([], st, [])
  else if cacheNeedsRefresh st force w.now then
    match get_mcp_session w.mcpEnabled w.catalogConnect st with
    | (none, st1, tr) => ([], st1, tr)
    | (some sid, st1, tr) =>
      match w.catalogTools with
      | Except.ok ts =>
        let dict := buildToolDict ts
        let st2 := { st1 with tools_cache := some dict,
                              cache_timestamp := some w.now,
                              mcp_available := true }
        (dict, st2, tr ++ [Event.listToolsCall sid])
      | Except.error _ => ([], st1, tr ++ [Event.listToolsCall sid])
  else (st.tools_cache.getD [], st, [])

/-! ### Tool selection and result normalization (src/chatbot/app.py) -/

/-- `ChatbotService.choose_tool_with_ollama` (lines 99-142).  The whole
body sits in one `try`; with a nonempty catalog the Ollama call is made
and any failure is caught, producing the null decision extended with an
`error` field.  On success the stripped content goes through
`_force_json`; a falsy or failed parse falls back to the null decision
(`parsed or default` in Python).  No heuristic exists in this variant. -/
def choose_tool_with_ollama (modelResp : Except String String)
    (tools : List (String × Tool)) : Json :=
  if tools.isEmpty then nullChoice
  else
    match modelResp with
    | Except.error e =>
      jobj [(toolKey, Json.null), (argsKey, jobj []), (errorKey, Json.str e)]
    | Except.ok content =>
      match force_json (pyStrip content) with
      | some j => if jsonTruthy j then j else nullChoice
      | none => nullChoice

/-- Outcome of evaluating `not tool_name or tool_name not in tools` on
the decision (lines 191-194).  A missing or falsy `tool`, or a hashable
value that is not a catalog key, selects no tool; a non-object decision
or an unhashable `tool` value raises, which the outer `try` catches. -/
inductive ToolSel where
  | noTool : ToolSel
  | selected : String → ToolSel
  | pyFault : String → ToolSel
deriving DecidableEq

/-- Modelled message of the `TypeError` for an unhashable `tool` value. -/
def unhashableMsg : String := "unhashable type"

/-- Modelled message of the `AttributeError` when the decision is not a
dict and `.get` is missing. -/
def attrErrMsg : String := "no attribute get"

def keysOf (tools : List (String × Tool)) : List String := tools.map Prod.fst

def resolveTool (choice : Json) (keys : List String) : ToolSel :=
  match choice with
  | Json.obj kvs =>
    match lookupKV kvs toolKey with
    | none => ToolSel.noTool
    | some j =>
      if !jsonTruthy j then ToolSel.noTool
      else
        match j with
        | Json.str n => if keys.contains n then ToolSel.selected n else ToolSel.noTool
        | Json.arr _ => ToolSel.pyFault unhashableMsg
        | Json.obj _ => ToolSel.pyFault unhashableMsg
        | _ => ToolSel.noTool
  | _ => ToolSel.pyFault attrErrMsg

/-- `choice.get("arguments", \x7b\x7d)`. -/
def choiceArgs (choice : Json) : Json :=
  match choice with
  | Json.obj kvs => (lookupKV kvs argsKey).getD (jobj [])
  | _ => jobj []

/-- Normalized invocation result: a tagged union of a structured payload
or a text payload. -/
inductive Payload where
  | text : String → Payload
  | structured : Json → Payload
deriving DecidableEq

def noContentText : String := "No content returned"

def contentTexts (res : CallToolResult) : List String :=
  (res.content.getD []).filterMap CallContent.text

def normalizeText (res : CallToolResult) : Payload :=
  let texts := contentTexts res
  if texts.isEmpty then Payload.text noContentText
  else Payload.text (joinSep ("\n") texts)

/-- Result normalization of `ChatbotService.run_query` (lines 216-220):
`if hasattr(res, 'structuredContent') and res.structuredContent` — the
structured payload wins when present and truthy; otherwise the text
fragments are joined with newlines, or the placeholder stands in. -/
def normalize_result (res : CallToolResult) : Payload :=
  match res.structuredContent with
  | some j => if jsonTruthy j then Payload.structured j else normalizeText res
  | none => normalizeText res

/-! ### The response envelope and `run_query` -/

/-- The JSON-relevant fields of the response envelope; the generation
timestamp carried by every envelope in the source is not modelled. -/
structure Envelope where
  choice : Option Json
  result : Option Payload
  error : Option String
  available_tools : Option (List String)
deriving DecidableEq

def mcpUnavailableText : String :=
  "MCP server is not available. Please check the connection to the Zabbix MCP server."

def mcpDisabledText : String :=
  "MCP functionality is disabled. Only basic chat functionality is available."

def noToolTextPre : String := "No suitable tool found for your query. Available tools: "

def execConnFailText : String := "Failed to connect to MCP server for tool execution."

def toolExecFailedPre : String := "Tool execution failed: "

def queryFailedPre : String := "Query processing failed: "

/-- `', '.join(tools.keys()) if tools else 'None'`. -/
def joinAvail (keys : List String) : String :=
  if keys.isEmpty then "None" else joinSep (", ") keys

/-- `ChatbotService.run_query` (lines 168-245). -/
def run_query (st : ServiceState) (w : World) (user_prompt : String) :
    Envelope × ServiceState × List Event :=
  let t := get_tools false st w
  let tools := t.1
  let st1 := t.2.1
  let tr1 := t.2.2
  if tools.isEmpty && w.mcpEnabled then
    ({ choice := some nullChoice, result := some (Payload.text mcpUnavailableText),
       error := some ("mcp_unavailable"), available_tools := none }, st1, tr1)
  else if tools.isEmpty then
    ({ choice := some nullChoice, result := some (Payload.text mcpDisabledText),
       error := some ("mcp_disabled"), available_tools := none }, st1, tr1)
  else
    let choice := choose_tool_with_ollama w.modelResponse tools
    let tr2 := tr1 ++ [Event.modelCall]
    match resolveTool choice (keysOf tools) with
    | ToolSel.pyFault e =>
      ({ choice := none, result := some (Payload.text (queryFailedPre ++ e)),
         error := some e, available_tools := none }, st1, tr2)
    | ToolSel.noTool =>
      ({ choice := some choice,
         result := some (Payload.text (noToolTextPre ++ joinAvail (keysOf tools))),
         error := some ("no_tool_selected"),
         available_tools := some (keysOf tools) }, st1, tr2)
    | ToolSel.selected name =>
      match get_mcp_session w.mcpEnabled w.execConnect st1 with
      | (none, st2, tr3) =>
        ({ choice := some choice, result := some (Payload.text execConnFailText),
           error := some ("mcp_connection_failed"), available_tools := none },
         st2, tr2 ++ tr3)
      | (some sid, st2, tr3) =>
        match w.callToolResult with
        | Except.ok res =>
          ({ choice := some choice, result := some (normalize_result res),
             error := none, available_tools := none },
           st2, tr2 ++ tr3 ++ [Event.toolCall sid name])
        | Except.error e =>
          ({ choice := some choice,
             result := some (Payload.text (toolExecFailedPre ++ e)),
             error := some ("tool_execution_failed"), available_tools := none },
           st2, tr2 ++ tr3 ++ [Event.toolCall sid name])

/-! ### The POST /chat boundary (src/chatbot/app.py lines 294-312) -/

inductive ChatResponse where
  | ok : Envelope → ChatResponse
  | httpError : Nat → String → ChatResponse
deriving DecidableEq

def emptyDetail : String := "Message cannot be empty"

/-- The `chat` endpoint: `(body.get("message") or "").strip()`; an empty
result yields HTTP 400 before `run_query` or anything downstream runs.
`none` models a request body whose `message` key is absent or null,
since `dict.get` returns `None` for both. -/
def chat (message : Option String) (st : ServiceState) (w : World) :
    ChatResponse × ServiceState × List Event :=
  let stripped := pyStripChars (message.getD ("")).data
  if stripped.isEmpty then (ChatResponse.httpError 400 emptyDetail, st, [])
  else
    let r := run_query st w (String.mk stripped)
    (ChatResponse.ok r.1, r.2.1, r.2.2)

/-! ### The transport negotiator (src/jump-home/app/test_script.py
lines 107-138) -/

inductive Transport where
  | stream : Transport
  | sse : Transport
deriving DecidableEq

def mcpSuffix : String := "/mcp"

/-- The second candidate endpoint: strip a trailing `/mcp`, or append it
to the slash-trimmed hint. -/
def mcpAlt (url_hint : String) : String :=
  if endsWithChars url_hint mcpSuffix then strDropRightChars url_hint 4
  else String.mk (rstripChar url_hint.data '/') ++ mcpSuffix

def mcpCandidates (url_hint : String) : List String := [url_hint, mcpAlt url_hint]

def connectFailMsg (url_hint : String) (lastErr : Option String) : String :=
  "Could not connect to MCP at " ++ url_hint ++ ". Last error: " ++ lastErr.getD ("None")

/-- The candidate loop of `connect_and_run`: for each base, streaming
HTTP first, then SSE; `lastErr` holds the most recent failure. -/
def tryCandidates (url_hint : String)
    (attempt : Transport → String → Except String Unit) :
    List String → Option String → Except String (Transport × String)
  | [], lastErr => Except.error (connectFailMsg url_hint lastErr)
  | base :: rest, _ =>
    match attempt Transport.stream base with
    | Except.ok _ => Except.ok (Transport.stream, base)
    | Except.error _ =>
      match attempt Transport.sse base with
      | Except.ok _ => Except.ok (Transport.sse, base)
      | Except.error e2 => tryCandidates url_hint attempt rest (some e2)

/-- `connect_and_run(url_hint)`: try both transports on the hint and on
its `/mcp` variant; `attempt` gives the outcome of each transport-level
connect plus protocol handshake.  Success reports which transport and
base produced the session; total failure raises with the last error. -/
def connect_and_run (url_hint : String)
    (attempt : Transport → String → Except String Unit) :
    Except String (Transport × String) :=
  tryCandidates url_hint attempt (mcpCandidates url_hint) none

/-! ### Concrete fixtures for witnesses and counterexamples -/

/-- A two-tool catalog as `list_tools` would report it. -/
def demoTools : List (String × Tool) :=
  [("host_get", { description := "Get hosts" }),
   ("problem_get", { description := "Get problems" })]

/-- The service state right after construction (lines 50-53). -/
def stZero : ServiceState :=
  { tools_cache := none, cache_timestamp := none,
    mcp_available := false, nextSession := 0 }

/-- A state whose cache was filled with `demoTools` at time 0. -/
def stCached : ServiceState :=
  { tools_cache := some demoTools, cache_timestamp := some 0,
    mcp_available := true, nextSession := 0 }

/-- A model reply selecting `host_get` as strict JSON. -/
def okContent : String := "\x7b\"tool\": \"host_get\", \"arguments\": \x7b\x7d\x7d"

/-- A model reply selecting a tool that is not in the catalog. -/
def ghostContent : String := "\x7b\"tool\": \"ghost_tool\", \"arguments\": \x7b\x7d\x7d"

/-- A world in which every external collaborator succeeds. -/
def wBase : World :=
  { mcpEnabled := true, now := 10, catalogConnect := true,
    catalogTools := Except.ok demoTools,
    modelResponse := Except.ok okContent,
    execConnect := true,
    callToolResult := Except.ok
      { structuredContent := none,
        content := some [{ text := some "h1" }, { text := some "h2" }] } }

/-- Text whose only braces delimit a nested object: the greedy and the
minimal brace matches differ on it. -/
def cexNested : String := "x \x7b\"a\": \x7b\"b\": 1\x7d\x7d y"

/-- The heuristic decision for version/API queries. -/
def versionDecision : Json :=
  jobj [(toolKey, Json.str ("apiinfo_version")), (argsKey, jobj [])]

/-- The heuristic decision for problem/incident/alert queries. -/
def problemDecision : Json :=
  jobj [(toolKey, Json.str ("problem_get")),
        (argsKey, jobj [("recent", Json.bool true), ("limit", Json.num 5 0)])]

/-- The heuristic decision for host queries. -/
def hostDecision : Json :=
  jobj [(toolKey, Json.str ("host_get")), (argsKey, jobj [])]

/-- Whether the invocation result carries a truthy structured payload —
the condition of line 216. -/
def structuredTruthy (res : CallToolResult) : Bool :=
  match res.structuredContent with
  | some j => jsonTruthy j
  | none => false

/-- A transport oracle for which every connection attempt fails. -/
def failAttempt : Transport → String → Except String Unit :=
  fun _ _ => Except.error ("down")

/-- A world in which the model picks a tool missing from the catalog. -/
def wGhost : World := { wBase with now := 20, modelResponse := Except.ok ghostContent }

/-- The parsed decision fields of `ghostContent`. -/
def ghostKvs : JsonFields :=
  JsonFields.cons toolKey (Json.str ("ghost_tool"))
    (JsonFields.cons argsKey (jobj []) JsonFields.nil)

/-- A world in which the Ollama call raises. -/
def wModelDown : World := { wBase with now := 20, modelResponse := Except.error ("down") }

/-! ### Helper lemmas (shared, not claim-specific) -/

theorem extract_chain_eq (t : String) :
    (match jsonLoads t with
     | some j => some j
     | none =>
       match matchMinBrace t.data with
       | some m =>
         match jsonLoads (String.mk m) with
         | some j => some j
         | none => none
       | none => none) =
    (jsonLoads t).orElse
      (fun _ => (matchMinBrace t.data).bind (fun m => jsonLoads (String.mk m))) := by
  cases jsonLoads t with
  | some j => rfl
  | none =>
    cases matchMinBrace t.data with
    | none => rfl
    | some m => cases h : jsonLoads (String.mk m) <;> simp [h]

theorem get_tools_no_toolCall (force : Bool) (st : ServiceState) (w : World) :
    ((get_tools force st w).2.2).all (fun e => !isToolCallEvent e) = true := by
  unfold get_tools get_mcp_session
  cases hme : w.mcpEnabled <;> cases hcc : w.catalogConnect <;>
    cases hct : w.catalogTools <;>
      simp [hme, hcc, hct, isToolCallEvent] <;> repeat' split <;>
        simp [isToolCallEvent]

theorem run_query_noTool_shape (st : ServiceState) (w : World) (q : String)
    (hne : ((get_tools false st w).1).isEmpty = false)
    (hres : resolveTool (choose_tool_with_ollama w.modelResponse (get_tools false st w).1)
        (keysOf (get_tools false st w).1) = ToolSel.noTool) :
    run_query st w q =
      ({ choice := some (choose_tool_with_ollama w.modelResponse (get_tools false st w).1),
         result := some (Payload.text
           (noToolTextPre ++ joinAvail (keysOf (get_tools false st w).1))),
         error := some ("no_tool_selected"),
         available_tools := some (keysOf (get_tools false st w).1) },
       (get_tools false st w).2.1,
       (get_tools false st w).2.2 ++ [Event.modelCall]) := by
  unfold run_query
  simp [hne, hres]

/-! ### Claim theorems -/

/-- Claim C1 (confirmed).  For every request that reaches tool selection,
if the selection decision's `tool` field is absent, null, or a string
that is not a key of the catalog current at selection time, then
`run_query` returns a `no_tool_selected` envelope that enumerates the
available tool names (in the `available_tools` field and in the result
text), carries the decision unchanged, and its trace contains no tool
invocation — even when the decision is a syntactically valid object. -/
theorem run_query_invalid_tool_no_invocation (st : ServiceState) (w : World)
    (q : String) (kvs : JsonFields)
    (hne : ((get_tools false st w).1).isEmpty = false)
    (hch : choose_tool_with_ollama w.modelResponse (get_tools false st w).1 = Json.obj kvs)
    (htool : lookupKV kvs toolKey = none ∨ lookupKV kvs toolKey = some Json.null ∨
      ∃ n, lookupKV kvs toolKey = some (Json.str n) ∧
        (keysOf (get_tools false st w).1).contains n = false) :
    (run_query st w q).1.error = some ("no_tool_selected") ∧
    (run_query st w q).1.available_tools = some (keysOf (get_tools false st w).1) ∧
    (run_query st w q).1.result =
      some (Payload.text (noToolTextPre ++ joinAvail (keysOf (get_tools false st w).1))) ∧
    (run_query st w q).1.choice = some (Json.obj kvs) ∧
    ((run_query st w q).2.2).all (fun e => !isToolCallEvent e) = true := by
  have hres : resolveTool (Json.obj kvs) (keysOf (get_tools false st w).1) =
      ToolSel.noTool := by
    rcases htool with h | h | ⟨n, h, hn⟩
    · simp [resolveTool, h]
    · simp [resolveTool, h, jsonTruthy]
    · have hn2 : n ∉ keysOf (get_tools false st w).1 := by simpa using hn
      simp [resolveTool, h, jsonTruthy, hn2]
  have hmain := run_query_noTool_shape st w q hne (by rw [hch]; exact hres)
  rw [hmain]
  refine ⟨rfl, rfl, rfl, ?_, ?_⟩
  · rw [hch]
  · rw [List.all_append, get_tools_no_toolCall]
    rfl

/-- Witness for C1: with a cached two-tool catalog and a model decision
naming the absent tool `ghost_tool`, the request ends in a
`no_tool_selected` envelope listing the two catalog tools, with no tool
invocation in the trace. -/
theorem run_query_invalid_tool_no_invocation_witness :
    (run_query stCached wGhost ("summon the ghost")).1.error = some ("no_tool_selected") ∧
    (run_query stCached wGhost ("summon the ghost")).1.available_tools =
      some (keysOf (get_tools false stCached wGhost).1) ∧
    (run_query stCached wGhost ("summon the ghost")).1.result =
      some (Payload.text
        (noToolTextPre ++ joinAvail (keysOf (get_tools false stCached wGhost).1))) ∧
    (run_query stCached wGhost ("summon the ghost")).1.choice = some (Json.obj ghostKvs) ∧
    ((run_query stCached wGhost ("summon the ghost")).2.2).all
      (fun e => !isToolCallEvent e) = true :=
  run_query_invalid_tool_no_invocation stCached wGhost ("summon the ghost") ghostKvs
    (by decide) (by decide)
    (Or.inr (Or.inr ⟨"ghost_tool", by decide, by decide⟩))

/-- Claim C2 (confirmed).  The heuristic selector evaluates its
case-insensitive substring rules in fixed priority order with first
match winning: version/api beats problem/incident/alert beats host, and
otherwise the null decision results; in particular text containing both
"version" and "host" yields the version tool, never the host tool. -/
theorem heuristic_priority_order (s : String) :
    ((containsSub (toLowerChars s).data kwVersion.data ||
      containsSub (toLowerChars s).data kwApi.data) = true →
      heuristic_fallback s = versionDecision) ∧
    ((containsSub (toLowerChars s).data kwVersion.data ||
      containsSub (toLowerChars s).data kwApi.data) = false →
     (containsSub (toLowerChars s).data kwProblem.data ||
      containsSub (toLowerChars s).data kwIncident.data ||
      containsSub (toLowerChars s).data kwAlert.data) = true →
      heuristic_fallback s = problemDecision) ∧
    ((containsSub (toLowerChars s).data kwVersion.data ||
      containsSub (toLowerChars s).data kwApi.data) = false →
     (containsSub (toLowerChars s).data kwProblem.data ||
      containsSub (toLowerChars s).data kwIncident.data ||
      containsSub (toLowerChars s).data kwAlert.data) = false →
     containsSub (toLowerChars s).data kwHost.data = true →
      heuristic_fallback s = hostDecision) ∧
    ((containsSub (toLowerChars s).data kwVersion.data ||
      containsSub (toLowerChars s).data kwApi.data) = false →
     (containsSub (toLowerChars s).data kwProblem.data ||
      containsSub (toLowerChars s).data kwIncident.data ||
      containsSub (toLowerChars s).data kwAlert.data) = false →
     containsSub (toLowerChars s).data kwHost.data = false →
      heuristic_fallback s = nullChoice) ∧
    (containsSub (toLowerChars s).data kwVersion.data = true →
     containsSub (toLowerChars s).data kwHost.data = true →
      heuristic_fallback s = versionDecision) := by
  refine ⟨?_, ?_, ?_, ?_, ?_⟩
  · intro h
    simp [heuristic_fallback, h, versionDecision]
  · intro h1 h2
    simp at h1
    simp [heuristic_fallback, h1.1, h1.2, h2, problemDecision]
  · intro h1 h2 h3
    simp at h1 h2
    simp [heuristic_fallback, h1.1, h1.2, h2.1.1, h2.1.2, h2.2, h3, hostDecision]
  · intro h1 h2 h3
    simp at h1 h2
    simp [heuristic_fallback, h1.1, h1.2, h2.1.1, h2.1.2, h2.2, h3]
  · intro h1 h2
    simp [heuristic_fallback, h1, versionDecision]

/-- Witness for C2: text containing both "host" and "version" (in mixed
case) selects the version tool, never the host tool. -/
theorem heuristic_priority_order_witness :
    heuristic_fallback ("What HOST version?") = versionDecision :=
  (heuristic_priority_order ("What HOST version?")).2.2.2.2 (by decide) (by decide)

/-- Claim C3, counterexample.  On text whose braces delimit a nested
object, the extractor as the claim states it — greedy match from the
first opening brace to the last closing brace — recovers the object,
but `ChatbotService._force_json` returns null: its actual fallback
pattern stops at the first closing brace and the truncated substring
does not parse.  The code therefore does not implement the claimed
greedy step (3). -/
theorem force_json_greedy_cex :
    force_json cexNested = none ∧
    extract_spec_claimed cexNested =
      some (jobj [("a", jobj [("b", Json.num 1 0)])]) ∧
    force_json cexNested ≠ extract_spec_claimed cexNested := by
  refine ⟨by decide, by decide, by decide⟩

/-- Claim C3 as amended (proved).  For every input string, `_force_json`
proceeds in order: (1) strip a leading ```json marker and a trailing
``` marker from the whitespace-stripped text; (2) attempt to parse the
result directly as JSON; (3) on failure, attempt to parse the leftmost
minimal brace-delimited substring — from an opening brace to the next
closing brace with at least one intervening non-closing-brace character,
never spanning to the last closing brace; (4) if still unparseable,
return null, never raising. -/
theorem force_json_minimal_brace_steps (raw : String) :
    force_json raw = extract_spec_amended raw := by
  unfold force_json extract_spec_amended
  exact extract_chain_eq _

/-- Claim C4, counterexample.  When the Ollama call fails, the selection
step of `ChatbotService` returns the null decision tagged with the error
message and the heuristic selector is never consulted: for the prompt
"List all hosts" (which the heuristic maps to `host_get`) the request
ends as `no_tool_selected` with a null `tool`, not as a `host_get`
invocation.  The claim's "triggers the heuristic fallback" is false for
the code. -/
theorem model_failure_no_heuristic_cex :
    choose_tool_with_ollama (Except.error ("boom")) demoTools =
      jobj [(toolKey, Json.null), (argsKey, jobj []), (errorKey, Json.str ("boom"))] ∧
    heuristic_fallback ("List all hosts") = hostDecision ∧
    choose_tool_with_ollama (Except.error ("boom")) demoTools ≠
      heuristic_fallback ("List all hosts") ∧
    (run_query stCached { wBase with now := 20, modelResponse := Except.error ("boom") }
        ("List all hosts")).1.error = some ("no_tool_selected") ∧
    (run_query stCached { wBase with now := 20, modelResponse := Except.error ("boom") }
        ("List all hosts")).1.choice ≠ some (heuristic_fallback ("List all hosts")) :=
  ⟨by decide, by decide, by decide, by decide, by decide⟩

/-- Claim C4 as amended (proved).  Any failure of the language-model
call is caught as a non-fatal error: the selection step yields the
decision `\x7btool: null, arguments: \x7b\x7d, error: <message>\x7d`, no
heuristic fallback is applied, the request resolves as a
`no_tool_selected` envelope carrying that decision, and no unhandled
fault (and no tool invocation) escapes the bridge. -/
theorem model_failure_caught_null_decision (st : ServiceState) (w : World)
    (q : String) (e : String)
    (hne : ((get_tools false st w).1).isEmpty = false)
    (herr : w.modelResponse = Except.error e) :
    choose_tool_with_ollama w.modelResponse (get_tools false st w).1 =
      jobj [(toolKey, Json.null), (argsKey, jobj []), (errorKey, Json.str e)] ∧
    (run_query st w q).1.error = some ("no_tool_selected") ∧
    (run_query st w q).1.choice =
      some (jobj [(toolKey, Json.null), (argsKey, jobj []), (errorKey, Json.str e)]) ∧
    ((run_query st w q).2.2).all (fun e0 => !isToolCallEvent e0) = true := by
  have hch : choose_tool_with_ollama w.modelResponse (get_tools false st w).1 =
      jobj [(toolKey, Json.null), (argsKey, jobj []), (errorKey, Json.str e)] := by
    unfold choose_tool_with_ollama
    rw [herr]
    simp [hne]
  have hres : resolveTool
      (jobj [(toolKey, Json.null), (argsKey, jobj []), (errorKey, Json.str e)])
      (keysOf (get_tools false st w).1) = ToolSel.noTool := rfl
  have hmain := run_query_noTool_shape st w q hne (by rw [hch]; exact hres)
  rw [hmain]
  refine ⟨hch, rfl, ?_, ?_⟩
  · rw [hch]
  · rw [List.all_append, get_tools_no_toolCall]
    rfl

/-- Witness for the amended C4: a failing model call with message "down"
against the cached catalog ends as a caught error decision and a
`no_tool_selected` envelope, with no tool invocation in the trace. -/
theorem model_failure_caught_null_decision_witness :
    choose_tool_with_ollama wModelDown.modelResponse
        (get_tools false stCached wModelDown).1 =
      jobj [(toolKey, Json.null), (argsKey, jobj []), (errorKey, Json.str ("down"))] ∧
    (run_query stCached wModelDown ("ping")).1.error = some ("no_tool_selected") ∧
    (run_query stCached wModelDown ("ping")).1.choice =
      some (jobj [(toolKey, Json.null), (argsKey, jobj []),
                  (errorKey, Json.str ("down"))]) ∧
    ((run_query stCached wModelDown ("ping")).2.2).all
      (fun e0 => !isToolCallEvent e0) = true :=
  model_failure_caught_null_decision stCached wModelDown ("ping") ("down")
    (by decide) rfl

/-- Claim C5 (confirmed).  On invocation success the result is a tagged
union: a structured payload is produced exactly when the remote response
carries one (present and non-empty, the interpretation the
specification itself adopts); otherwise the textual fragments are joined
with newline separators; and when neither structured content nor any
text fragment exists, the result is the literal placeholder. -/
theorem normalize_result_tagged_union (res : CallToolResult) :
    (∀ j, res.structuredContent = some j → jsonTruthy j = true →
      normalize_result res = Payload.structured j) ∧
    (structuredTruthy res = false → contentTexts res ≠ [] →
      normalize_result res = Payload.text (joinSep ("\n") (contentTexts res))) ∧
    (structuredTruthy res = false → contentTexts res = [] →
      normalize_result res = Payload.text noContentText) := by
  refine ⟨?_, ?_, ?_⟩
  · intro j hj ht
    simp [normalize_result, hj, ht]
  · intro hs hne
    have hni : (contentTexts res).isEmpty = false := by
      cases h : contentTexts res with
      | nil => exact absurd h hne
      | cons a tl => rfl
    cases h : res.structuredContent with
    | none => simp [normalize_result, h, normalizeText, hni]
    | some j =>
      have hjf : jsonTruthy j = false := by
        have hv := hs
        simp [structuredTruthy, h] at hv
        exact hv
      simp [normalize_result, h, hjf, normalizeText, hni]
  · intro hs hnil
    cases h : res.structuredContent with
    | none => simp [normalize_result, h, normalizeText, hnil]
    | some j =>
      have hjf : jsonTruthy j = false := by
        have hv := hs
        simp [structuredTruthy, h] at hv
        exact hv
      simp [normalize_result, h, hjf, normalizeText, hnil]

/-- Witness for C5: a response with a non-empty structured payload
normalizes to the structured variant. -/
theorem normalize_result_tagged_union_witness :
    normalize_result { structuredContent := some (jobj [("version", Json.str ("7.0"))]),
                       content := none } =
      Payload.structured (jobj [("version", Json.str ("7.0"))]) :=
  (normalize_result_tagged_union _).1 _ rfl (by decide)

/-- Claim C6, code evaluation (code bug).  The within-window half of the
claim holds: a second `get_tools` call at cache age exactly 300 seconds
returns the cached dictionary unchanged with an empty event trace (no
remote fetch).  But the after-window half fails: the code measures age
with `timedelta.seconds`, the seconds component modulo one day, instead
of `total_seconds()`; at a true age of 86460 seconds (one day plus one
minute, far beyond the 300-second window) the computed component is 60,
so the stale cache is served and no refresh is triggered. -/
theorem get_tools_cache_day_wrap_bug :
    (get_tools false stZero wBase).1 = demoTools ∧
    (get_tools false stZero wBase).2.1.tools_cache = some demoTools ∧
    (get_tools false stZero wBase).2.1.cache_timestamp = some 10 ∧
    get_tools false ((get_tools false stZero wBase).2.1) { wBase with now := 310 } =
      (demoTools, (get_tools false stZero wBase).2.1, []) ∧
    86470 - 10 > 300 ∧
    tdSeconds 86470 10 = 60 ∧
    get_tools false ((get_tools false stZero wBase).2.1) { wBase with now := 86470 } =
      (demoTools, (get_tools false stZero wBase).2.1, []) :=
  ⟨by decide, by decide, by decide, by decide, by decide, by decide, by decide⟩

/-- Claim C7 (confirmed).  `connect_and_run` tries streaming HTTP before
SSE on the hinted endpoint, then on its `/mcp` path variant; it succeeds
with the first transport that connects, fails only after all four
attempts have failed, and the raised message retains the last underlying
failure (the SSE error on the variant endpoint). -/
theorem connect_priority_and_error (u : String)
    (attempt : Transport → String → Except String Unit) :
    (attempt Transport.stream u = Except.ok () →
      connect_and_run u attempt = Except.ok (Transport.stream, u)) ∧
    (∀ e1, attempt Transport.stream u = Except.error e1 →
      attempt Transport.sse u = Except.ok () →
      connect_and_run u attempt = Except.ok (Transport.sse, u)) ∧
    (∀ e1 e2, attempt Transport.stream u = Except.error e1 →
      attempt Transport.sse u = Except.error e2 →
      attempt Transport.stream (mcpAlt u) = Except.ok () →
      connect_and_run u attempt = Except.ok (Transport.stream, mcpAlt u)) ∧
    (∀ e1 e2 e3, attempt Transport.stream u = Except.error e1 →
      attempt Transport.sse u = Except.error e2 →
      attempt Transport.stream (mcpAlt u) = Except.error e3 →
      attempt Transport.sse (mcpAlt u) = Except.ok () →
      connect_and_run u attempt = Except.ok (Transport.sse, mcpAlt u)) ∧
    (∀ e1 e2 e3 e4, attempt Transport.stream u = Except.error e1 →
      attempt Transport.sse u = Except.error e2 →
      attempt Transport.stream (mcpAlt u) = Except.error e3 →
      attempt Transport.sse (mcpAlt u) = Except.error e4 →
      connect_and_run u attempt = Except.error (connectFailMsg u (some e4))) ∧
    (∀ m, connect_and_run u attempt = Except.error m →
      (∃ e1, attempt Transport.stream u = Except.error e1) ∧
      (∃ e2, attempt Transport.sse u = Except.error e2) ∧
      (∃ e3, attempt Transport.stream (mcpAlt u) = Except.error e3) ∧
      (∃ e4, attempt Transport.sse (mcpAlt u) = Except.error e4 ∧
        m = connectFailMsg u (some e4))) := by
  refine ⟨?_, ?_, ?_, ?_, ?_, ?_⟩
  · intro h
    simp [connect_and_run, mcpCandidates, tryCandidates, h]
  · intro e1 h1 h2
    simp [connect_and_run, mcpCandidates, tryCandidates, h1, h2]
  · intro e1 e2 h1 h2 h3
    simp [connect_and_run, mcpCandidates, tryCandidates, h1, h2, h3]
  · intro e1 e2 e3 h1 h2 h3 h4
    simp [connect_and_run, mcpCandidates, tryCandidates, h1, h2, h3, h4]
  · intro e1 e2 e3 e4 h1 h2 h3 h4
    simp [connect_and_run, mcpCandidates, tryCandidates, h1, h2, h3, h4]
  · intro m hm
    cases h1 : attempt Transport.stream u with
    | ok v =>
      simp [connect_and_run, mcpCandidates, tryCandidates, h1] at hm
    | error e1 =>
      cases h2 : attempt Transport.sse u with
      | ok v =>
        simp [connect_and_run, mcpCandidates, tryCandidates, h1, h2] at hm
      | error e2 =>
        cases h3 : attempt Transport.stream (mcpAlt u) with
        | ok v =>
          simp [connect_and_run, mcpCandidates, tryCandidates, h1, h2, h3] at hm
        | error e3 =>
          cases h4 : attempt Transport.sse (mcpAlt u) with
          | ok v =>
            simp [connect_and_run, mcpCandidates, tryCandidates, h1, h2, h3, h4] at hm
          | error e4 =>
            simp [connect_and_run, mcpCandidates, tryCandidates, h1, h2, h3, h4] at hm
            exact ⟨⟨e1, rfl⟩, ⟨e2, rfl⟩, ⟨e3, rfl⟩, ⟨e4, rfl, hm.symm⟩⟩

/-- Witness for C7: with every transport down, the negotiator fails with
the aggregated message retaining the last failure. -/
theorem connect_priority_and_error_witness :
    connect_and_run ("http://h:8820/mcp") failAttempt =
      Except.error (connectFailMsg ("http://h:8820/mcp") (some ("down"))) :=
  ((connect_priority_and_error ("http://h:8820/mcp") failAttempt).2.2.2.2.1)
    ("down") ("down") ("down") ("down") rfl rfl rfl rfl

/-- Claim C8, code evaluation (code bug).  On a fully successful request
the catalog refresh and the tool invocation each obtain their own fresh
session (ids 0 and 1 — the never-reused half of the claim holds), but
the trace contains two session-open events and no session-close event:
`get_mcp_session` enters the client context manager and never exits it,
so no exit path releases a session, contradicting the scoped-acquisition
half of the claim. -/
theorem run_query_sessions_never_closed :
    (run_query stZero wBase ("List all hosts")).1.error = none ∧
    (run_query stZero wBase ("List all hosts")).2.2 =
      [Event.sessionOpen 0, Event.listToolsCall 0, Event.listToolsCall 0,
       Event.modelCall, Event.sessionOpen 1, Event.listToolsCall 1,
       Event.toolCall 1 ("host_get")] ∧
    ((run_query stZero wBase ("List all hosts")).2.2).all
      (fun e => !isCloseEvent e) = true :=
  ⟨by decide, by decide, by decide⟩

/-- Claim C9 (confirmed).  Every empty or whitespace-only message is
rejected at the `chat` boundary with HTTP 400 before any downstream
component runs: the service state is untouched and the event trace is
empty — no catalog, transport, or model call happens. -/
theorem chat_rejects_whitespace_input (message : Option String)
    (st : ServiceState) (w : World)
    (hws : ∀ c ∈ (message.getD ("")).data, pyIsSpace c = true) :
    chat message st w = (ChatResponse.httpError 400 emptyDetail, st, []) := by
  have h1 : pyStripChars (message.getD ("")).data = [] := by
    unfold pyStripChars
    rw [List.dropWhile_eq_nil_iff.mpr hws]
    rfl
  unfold chat
  rw [h1]
  rfl

/-- Witness for C9: a whitespace-only message is rejected with 400 and
an empty trace. -/
theorem chat_rejects_whitespace_input_witness :
    chat (some ("  \t ")) stZero wBase =
      (ChatResponse.httpError 400 emptyDetail, stZero, []) :=
  chat_rejects_whitespace_input (some ("  \t ")) stZero wBase (by decide)

/-- Claim C10 (confirmed).  A request body whose `message` key is absent
or null (both make `body.get` return `None`, modelled as `none`) is
handled identically to an empty-string message: both are rejected with
status 400, the state is untouched, and no downstream event occurs. -/
theorem chat_absent_message_as_empty (st : ServiceState) (w : World) :
    chat none st w = chat (some ("")) st w ∧
    chat none st w = (ChatResponse.httpError 400 emptyDetail, st, []) :=
  ⟨rfl, rfl⟩
